import Mathlib

/-
Shallow embedding of the OnShape Touch userscript: the gesture-classifier
state machine, the synthetic mouse-event builder, the long-press timer
bookkeeping and the listener-registration patch. JavaScript numbers are
modelled as real numbers; setTimeout and clearTimeout are modelled by an
explicit list of outstanding scheduled callbacks with fresh numeric handles.
-/

namespace OnshapeTouch

/-- A single touch point carrying the three coordinate pairs
(screen, client, page) that the script reads. -/
structure Touch where
  screenX : ℝ
  screenY : ℝ
  clientX : ℝ
  clientY : ℝ
  pageX : ℝ
  pageY : ℝ
deriving Inhabited

/-- The target of a touch event: absent, an object without an id
property, or an object with a string id. -/
inductive Target where
  | null
  | noId
  | withId (id : String)

/-- A touch event: its target and the ordered list of active touch points. -/
structure TouchEvent where
  target : Target
  touches : List Touch

/-- The four synthetic event types the script generates. -/
inductive MouseType where
  | mousewheel
  | mousedown
  | mouseup
  | mousemove
deriving DecidableEq

/-- The eventInit dictionary passed to dispatchEvent.  A field that is none
is absent from the object literal and so does not override the base
coordinates computed from the touch points. -/
structure EventInit where
  button : Option ℕ := none
  buttons : Option ℕ := none
  deltaY : Option ℝ := none
  screenX : Option ℝ := none
  screenY : Option ℝ := none
  clientX : Option ℝ := none
  clientY : Option ℝ := none
  pageX : Option ℝ := none
  pageY : Option ℝ := none
  bubbles : Option Bool := none

/-- A fully built synthetic mouse or wheel event as the script constructs
it (deltaY is 0 for non-wheel events, mirroring the platform default). -/
structure MouseEvt where
  type : MouseType
  screenX : ℝ
  screenY : ℝ
  clientX : ℝ
  clientY : ℝ
  pageX : ℝ
  pageY : ℝ
  button : ℕ
  buttons : ℕ
  deltaY : ℝ
  bubbles : Bool

/-- How quickly to zoom using the pinch gesture (source constant). -/
def ZOOM_SENSITIVITY : ℝ := 10000

/-- Milliseconds to wait before opening the context menu (source constant). -/
def CONTEXT_MENU_TIMEOUT : ℕ := 1000

/-- Builds the synthetic event exactly as the dispatchEvent function of the
script does: base coordinates from the touch points (average of the first
two if at least two are present, the single point if one, zero if none),
overridden by any field present in eventInit, and bubbles forced to true
after the spread. -/
noncomputable def dispatchEvent (touchEvent : TouchEvent) (type : MouseType)
    (eventInit : EventInit := {}) : MouseEvt :=
  match touchEvent.touches with
  | t0 :: t1 :: _ =>
    { type := type
      screenX := eventInit.screenX.getD ((t0.screenX + t1.screenX) / 2)
      screenY := eventInit.screenY.getD ((t0.screenY + t1.screenY) / 2)
      clientX := eventInit.clientX.getD ((t0.clientX + t1.clientX) / 2)
      clientY := eventInit.clientY.getD ((t0.clientY + t1.clientY) / 2)
      pageX := eventInit.pageX.getD ((t0.pageX + t1.pageX) / 2)
      pageY := eventInit.pageY.getD ((t0.pageY + t1.pageY) / 2)
      button := eventInit.button.getD 0
      buttons := eventInit.buttons.getD 0
      deltaY := eventInit.deltaY.getD 0
      bubbles := true }
  | [t0] =>
    { type := type
      screenX := eventInit.screenX.getD t0.screenX
      screenY := eventInit.screenY.getD t0.screenY
      clientX := eventInit.clientX.getD t0.clientX
      clientY := eventInit.clientY.getD t0.clientY
      pageX := eventInit.pageX.getD t0.pageX
      pageY := eventInit.pageY.getD t0.pageY
      button := eventInit.button.getD 0
      buttons := eventInit.buttons.getD 0
      deltaY := eventInit.deltaY.getD 0
      bubbles := true }
  | [] =>
    { type := type
      screenX := eventInit.screenX.getD 0
      screenY := eventInit.screenY.getD 0
      clientX := eventInit.clientX.getD 0
      clientY := eventInit.clientY.getD 0
      pageX := eventInit.pageX.getD 0
      pageY := eventInit.pageY.getD 0
      button := eventInit.button.getD 0
      buttons := eventInit.buttons.getD 0
      deltaY := eventInit.deltaY.getD 0
      bubbles := true }

/-- The gesture modes of the classifier (source enum Mode). -/
inductive Mode where
  | None
  | PreRotate
  | PreZoomPan
  | Rotate
  | ZoomPan
deriving DecidableEq

/-- The mutable module-level state of the script, together with the list of
outstanding setTimeout callbacks (handle and the touch event captured by
the closure) and a fresh-handle counter.  Browser timer handles are
positive, so the counter starts at 1. -/
structure State where
  mode : Mode
  prevDistance : Option ℝ
  contextMenuTimer : Option ℕ
  pending : List (ℕ × TouchEvent)
  nextId : ℕ

/-- The state when the script has just loaded. -/
def initState : State :=
  { mode := Mode.None
    prevDistance := none
    contextMenuTimer := none
    pending := []
    nextId := 1 }

/-- The target test of checkEvent: true exactly when the target exists,
has an id property, and that id is not the canvas id. -/
def rejected (e : TouchEvent) : Bool :=
  match e.target with
  | Target.withId i => i != "canvas"
  | _ => false

/-- JavaScript truthiness of a possibly-null number (null and 0 are falsy). -/
def truthyId : Option ℕ → Bool
  | none => false
  | some h => h != 0

/-- The timer-clearing effect of checkEvent: if contextMenuTimer is truthy,
clearTimeout it (removing it from the outstanding list) and null the
variable. -/
def disarm (s : State) : State :=
  if truthyId s.contextMenuTimer then
    { s with
      pending := s.pending.filter (fun p => p.1 != s.contextMenuTimer.getD 0)
      contextMenuTimer := none }
  else s

/-- checkEvent: rejects events whose target has a non-canvas id (returning
false with no effect); otherwise calls preventDefault, disarms any
outstanding context-menu timer, and returns true.  The Bool result is also
exactly whether preventDefault was called. -/
def checkEvent (e : TouchEvent) (s : State) : Bool × State :=
  if rejected e then (false, s) else (true, disarm s)

/-- The result of running one handler: the new state, the synthetic events
dispatched (in order), and whether preventDefault was called. -/
structure HandlerResult where
  state : State
  events : List MouseEvt
  prevented : Bool

/-- The touchstart handler: after checkEvent, set the mode from the number
of touch points and arm the context-menu timer, capturing the event. -/
def touchstart (e : TouchEvent) (s : State) : HandlerResult :=
  if rejected e then { state := s, events := [], prevented := false }
  else
    let s1 := disarm s
    { state :=
        { s1 with
          mode := if 2 ≤ e.touches.length then Mode.PreZoomPan else Mode.PreRotate
          contextMenuTimer := some s1.nextId
          pending := s1.pending ++ [(s1.nextId, e)]
          nextId := s1.nextId + 1 }
      events := []
      prevented := true }

/-- The context-menu timer callback (the closure passed to setTimeout in
the touchstart handler), run on the event it captured: reset the mode,
null the timer variable, and dispatch a secondary-button down and up. -/
noncomputable def contextMenuCallback (e : TouchEvent) (s : State) : State × List MouseEvt :=
  ({ s with mode := Mode.None, contextMenuTimer := none },
   [dispatchEvent e MouseType.mousedown { button := some 2, buttons := some 2 },
    dispatchEvent e MouseType.mouseup { button := some 2, buttons := some 2 }])

/-- Firing of an outstanding timer with handle h: only a callback still in
the outstanding list can fire (clearTimeout removed cancelled ones); the
platform removes it from the list and runs it. -/
noncomputable def timerFire (h : ℕ) (s : State) : State × List MouseEvt :=
  match s.pending.find? (fun p => p.1 == h) with
  | none => (s, [])
  | some pe =>
    contextMenuCallback pe.2
      { s with pending := s.pending.filter (fun p => p.1 != h) }

/-- Math.hypot of two reals. -/
noncomputable def hypot (x y : ℝ) : ℝ := Real.sqrt (x ^ 2 + y ^ 2)

/-- Indexing into the touch list as the script does; the script only reads
indices that are present, so out-of-range reads (which would throw in
JavaScript) never matter for the properties proved below. -/
def touchAt (e : TouchEvent) (i : ℕ) : Touch := e.touches.getD i default

/-- JavaScript truthiness of the possibly-null prevDistance variable
(null and 0 are falsy). -/
def jsTruthy : Option ℝ → Prop
  | none => False
  | some d => d ≠ 0

/-- The two-finger separation computed by the ZoomPan case of the
touchmove handler: Math.hypot of the coordinate differences of the first
two touch points, in screen coordinates. -/
noncomputable def moveDistance (e : TouchEvent) : ℝ :=
  hypot ((touchAt e 0).screenX - (touchAt e 1).screenX)
    ((touchAt e 0).screenY - (touchAt e 1).screenY)

/-- Classical decidability for the truthiness test, so the handler can
branch on it the way the script does. -/
noncomputable instance (o : Option ℝ) : Decidable (jsTruthy o) :=
  Classical.dec _

/-- The touchmove handler, parameterised by window.screen.width. -/
noncomputable def touchmove (screenWidth : ℝ) (e : TouchEvent) (s : State) :
    HandlerResult :=
  if rejected e then { state := s, events := [], prevented := false }
  else
    let s1 := disarm s
    match s1.mode with
    | Mode.PreZoomPan =>
      { state := { s1 with mode := Mode.ZoomPan }
        events := [dispatchEvent e MouseType.mousedown
          { button := some 1, buttons := some 4 }]
        prevented := true }
    | Mode.ZoomPan =>
      let distance := moveDistance e
      let wheelEvents :=
        if jsTruthy s1.prevDistance then
          [dispatchEvent e MouseType.mousewheel
            { deltaY := some ((distance - s1.prevDistance.getD 0) /
                screenWidth * ZOOM_SENSITIVITY) }]
        else []
      { state := { s1 with prevDistance := some distance }
        events := dispatchEvent e MouseType.mousemove { button := some 2 } ::
          wheelEvents
        prevented := true }
    | Mode.PreRotate =>
      { state := { s1 with mode := Mode.Rotate }
        events := [dispatchEvent e MouseType.mousedown
          { button := some 2, buttons := some 2 }]
        prevented := true }
    | Mode.Rotate =>
      { state := s1
        events := [dispatchEvent e MouseType.mousemove
          { button := some 2, buttons := some 2 }]
        prevented := true }
    | Mode.None =>
      { state := s1, events := [], prevented := true }

/-- The touchend handler. -/
noncomputable def touchend (e : TouchEvent) (s : State) : HandlerResult :=
  if rejected e then { state := s, events := [], prevented := false }
  else
    let s1 := disarm s
    match s1.mode with
    | Mode.ZoomPan =>
      { state := { s1 with mode := Mode.None, prevDistance := none }
        events := [dispatchEvent e MouseType.mouseup
          { button := some 1, buttons := some 4 }]
        prevented := true }
    | Mode.Rotate =>
      { state := { s1 with mode := Mode.None }
        events := [dispatchEvent e MouseType.mouseup
          { button := some 2, buttons := some 2 }]
        prevented := true }
    | Mode.PreRotate =>
      { state := { s1 with mode := Mode.None }
        events := [dispatchEvent e MouseType.mousemove,
          dispatchEvent e MouseType.mousedown,
          dispatchEvent e MouseType.mouseup]
        prevented := true }
    | Mode.PreZoomPan =>
      { state := s1, events := [], prevented := true }
    | Mode.None =>
      { state := s1, events := [], prevented := true }

/-- A notification delivered to the script by the platform event loop:
one of the three touch events, or the firing of timer handle h. -/
inductive Notification where
  | start (e : TouchEvent)
  | move (e : TouchEvent)
  | ended (e : TouchEvent)
  | fire (h : ℕ)

/-- One step of the whole system. -/
noncomputable def step (screenWidth : ℝ) (s : State) (n : Notification) :
    State × List MouseEvt :=
  match n with
  | Notification.start e => ((touchstart e s).state, (touchstart e s).events)
  | Notification.move e =>
    ((touchmove screenWidth e s).state, (touchmove screenWidth e s).events)
  | Notification.ended e => ((touchend e s).state, (touchend e s).events)
  | Notification.fire h => timerFire h s

/-- Running a list of notifications from a state. -/
noncomputable def run (screenWidth : ℝ) (s : State)
    (l : List Notification) : State :=
  l.foldl (fun s n => (step screenWidth s n).1) s

/-- The startsWith test of the patch, modelled on the character list of
the string (the builtin byte-position version does not reduce in the
kernel, and the two agree on every string). -/
def startsWithTouch (type : String) : Bool :=
  "touch".data.isPrefixOf type.data

/-- The patched EventTarget.prototype.addEventListener: registrations of
touch-family event types are silently dropped, all others are forwarded
unchanged (with their arguments) to the original function.  The result is
the call made to the original function, if any. -/
def patchedAddEventListener {α : Type} (type : String) (args : α) :
    Option (String × α) :=
  if startsWithTouch type then none else some (type, args)

/-- Timer bookkeeping invariant: the fresh-handle counter is positive, and
either no timer is armed and none is outstanding, or exactly the armed
timer is outstanding, with a positive handle older than the counter. -/
def TimerInv (s : State) : Prop :=
  1 ≤ s.nextId ∧
  ((s.contextMenuTimer = none ∧ s.pending = []) ∨
    (∃ h e, s.contextMenuTimer = some h ∧ s.pending = [(h, e)] ∧
      1 ≤ h ∧ h < s.nextId))

/-- The pinch-memory and timer invariant claimed by the specification:
the previous distance is unset outside ZoomPan, an armed timer implies a
pending mode, at most one of the two is active, and both are clear in the
idle mode. -/
def PinchInv (s : State) : Prop :=
  (s.mode ≠ Mode.ZoomPan → s.prevDistance = none) ∧
  (s.contextMenuTimer ≠ none →
    s.mode = Mode.PreRotate ∨ s.mode = Mode.PreZoomPan) ∧
  ¬(s.prevDistance ≠ none ∧ s.contextMenuTimer ≠ none) ∧
  (s.mode = Mode.None → s.prevDistance = none ∧ s.contextMenuTimer = none)

/-- A notification sequence, starting from s, in which no accepted
touchstart arrives while the mode is still ZoomPan. -/
def SafeTrace (w : ℝ) : State → List Notification → Prop
  | _, [] => True
  | s, n :: l =>
    (∀ e, n = Notification.start e → rejected e = false →
      s.mode ≠ Mode.ZoomPan) ∧
    SafeTrace w (step w s n).1 l

/-- An eventInit that carries no coordinate overrides; every eventInit the
script actually passes is of this shape. -/
def coordFree (init : EventInit) : Prop :=
  init.screenX = none ∧ init.screenY = none ∧ init.clientX = none ∧
  init.clientY = none ∧ init.pageX = none ∧ init.pageY = none

/-- The coordinate rule of the specification, relative to a source touch
event: two or more points give the average of the first two, one point
gives that point, no points give zero, in all six coordinates. -/
def coordsFrom (te : TouchEvent) (ev : MouseEvt) : Prop :=
  match te.touches with
  | t0 :: t1 :: _ =>
    ev.screenX = (t0.screenX + t1.screenX) / 2 ∧
    ev.screenY = (t0.screenY + t1.screenY) / 2 ∧
    ev.clientX = (t0.clientX + t1.clientX) / 2 ∧
    ev.clientY = (t0.clientY + t1.clientY) / 2 ∧
    ev.pageX = (t0.pageX + t1.pageX) / 2 ∧
    ev.pageY = (t0.pageY + t1.pageY) / 2
  | [t0] =>
    ev.screenX = t0.screenX ∧ ev.screenY = t0.screenY ∧
    ev.clientX = t0.clientX ∧ ev.clientY = t0.clientY ∧
    ev.pageX = t0.pageX ∧ ev.pageY = t0.pageY
  | [] =>
    ev.screenX = 0 ∧ ev.screenY = 0 ∧ ev.clientX = 0 ∧ ev.clientY = 0 ∧
    ev.pageX = 0 ∧ ev.pageY = 0

/-- The touch event whose points a notification delivers to the
synthesizer: the event itself for the three touch notifications, the
captured touchstart event for a timer firing. -/
def sourceEvent (s : State) : Notification → Option TouchEvent
  | Notification.start e => some e
  | Notification.move e => some e
  | Notification.ended e => some e
  | Notification.fire h => (s.pending.find? (fun p => p.1 == h)).map Prod.snd

/-- A touch point at (x, y) in all three coordinate systems. -/
def mkTouch (x y : ℝ) : Touch :=
  { screenX := x, screenY := y, clientX := x, clientY := y,
    pageX := x, pageY := y }

/-- A touch event targeting the canvas element. -/
def canvasEvent (ts : List Touch) : TouchEvent :=
  { target := Target.withId "canvas", touches := ts }

/-- Two fingers at (0,0) and (100,0): inter-point distance 100. -/
def twoTouch100 : TouchEvent := canvasEvent [mkTouch 0 0, mkTouch 100 0]

/-- Two fingers at (0,0) and (80,0): inter-point distance 80. -/
def twoTouch80 : TouchEvent := canvasEvent [mkTouch 0 0, mkTouch 80 0]

/-- A single finger at (5,5). -/
def oneTouch55 : TouchEvent := canvasEvent [mkTouch 5 5]

/-- Two fingers at (0,0) and (30,40): inter-point distance 50. -/
def pinchMoveEvent : TouchEvent := canvasEvent [mkTouch 0 0, mkTouch 30 40]

/-- A pinching state with a recorded previous distance of 10. -/
def pinchState : State := ⟨Mode.ZoomPan, some 10, none, [], 1⟩

/-- A pinching state whose recorded previous distance is exactly 0. -/
def zeroPrevState : State := ⟨Mode.ZoomPan, some 0, none, [], 1⟩

@[simp]
lemma disarm_mode (s : State) : (disarm s).mode = s.mode := by
  unfold disarm; split <;> rfl

@[simp]
lemma disarm_prevDistance (s : State) :
    (disarm s).prevDistance = s.prevDistance := by
  unfold disarm; split <;> rfl

@[simp]
lemma disarm_nextId (s : State) : (disarm s).nextId = s.nextId := by
  unfold disarm; split <;> rfl

@[simp]
lemma dispatchEvent_type (e : TouchEvent) (ty : MouseType) (init : EventInit) :
    (dispatchEvent e ty init).type = ty := by
  unfold dispatchEvent; split <;> rfl

@[simp]
lemma dispatchEvent_button (e : TouchEvent) (ty : MouseType)
    (init : EventInit) :
    (dispatchEvent e ty init).button = init.button.getD 0 := by
  unfold dispatchEvent; split <;> rfl

@[simp]
lemma dispatchEvent_buttons (e : TouchEvent) (ty : MouseType)
    (init : EventInit) :
    (dispatchEvent e ty init).buttons = init.buttons.getD 0 := by
  unfold dispatchEvent; split <;> rfl

@[simp]
lemma dispatchEvent_deltaY (e : TouchEvent) (ty : MouseType)
    (init : EventInit) :
    (dispatchEvent e ty init).deltaY = init.deltaY.getD 0 := by
  unfold dispatchEvent; split <;> rfl

@[simp]
lemma dispatchEvent_bubbles (e : TouchEvent) (ty : MouseType)
    (init : EventInit) :
    (dispatchEvent e ty init).bubbles = true := by
  unfold dispatchEvent; split <;> rfl

/-- In a state satisfying the timer invariant, the checkEvent disarm leaves
no armed and no outstanding timer. -/
lemma disarm_of_timerInv (s : State) (h : TimerInv s) :
    (disarm s).contextMenuTimer = none ∧ (disarm s).pending = [] := by
  obtain ⟨-, h2 | h2⟩ := h
  · obtain ⟨hc, hp⟩ := h2
    unfold disarm
    rw [hc]
    simpa [truthyId] using ⟨hc, hp⟩
  · obtain ⟨hh, e, hc, hp, hh1, -⟩ := h2
    unfold disarm
    rw [hc]
    have ht : truthyId (some hh) = true := by
      simp [truthyId]
      omega
    rw [ht]
    simp [hp]

/-- C8: after the script loads, every registration of an event type whose
name starts with touch is silently dropped (the original addEventListener
is never called), and every other registration is forwarded unchanged,
with its arguments, to the original addEventListener. -/
theorem c8_listener_patch {α : Type} (type : String) (args : α) :
    (startsWithTouch type = true →
      patchedAddEventListener type args = none) ∧
    (startsWithTouch type = false →
      patchedAddEventListener type args = some (type, args)) := by
  constructor <;> intro h <;> simp [patchedAddEventListener, h]

/-- Witness for C8 at the concrete types touchstart and click. -/
theorem c8_listener_patch_witness :
    patchedAddEventListener "touchstart" (37 : ℕ) = none ∧
    patchedAddEventListener "click" (37 : ℕ) = some ("click", 37) :=
  ⟨(c8_listener_patch "touchstart" 37).1 (by decide),
   (c8_listener_patch "click" 37).2 (by decide)⟩

/-- C7: a touch notification whose target exposes an id other than canvas
is rejected by checkEvent with no observable effect in any of the three
handlers: no preventDefault, no state change, no synthesized events.  Any
other notification is accepted: preventDefault is called, and whatever
context-menu timer was armed is disarmed (no longer armed nor
outstanding) before the handlers do anything else. -/
theorem c7_check_event (w : ℝ) (e : TouchEvent) (s : State) :
    (rejected e = true →
      checkEvent e s = (false, s) ∧
      touchstart e s = ⟨s, [], false⟩ ∧
      touchmove w e s = ⟨s, [], false⟩ ∧
      touchend e s = ⟨s, [], false⟩) ∧
    (rejected e = false →
      checkEvent e s = (true, disarm s) ∧
      (touchstart e s).prevented = true ∧
      (touchmove w e s).prevented = true ∧
      (touchend e s).prevented = true ∧
      ∀ h, s.contextMenuTimer = some h → h ≠ 0 →
        (disarm s).contextMenuTimer = none ∧
        ∀ p ∈ (disarm s).pending, p.1 ≠ h) := by
  constructor <;> intro hr
  · refine ⟨by simp [checkEvent, hr], by simp [touchstart, hr],
      by simp [touchmove, hr], by simp [touchend, hr]⟩
  · refine ⟨by simp [checkEvent, hr], by simp [touchstart, hr], ?_, ?_, ?_⟩
    · unfold touchmove
      rw [hr]
      simp only [Bool.false_eq_true, if_false]
      split <;> rfl
    · unfold touchend
      rw [hr]
      simp only [Bool.false_eq_true, if_false]
      split <;> rfl
    · intro h hc hh0
      unfold disarm
      rw [hc]
      have ht : truthyId (some h) = true := by
        simp [truthyId]
        omega
      rw [ht]
      constructor
      · rfl
      · intro p hp
        simp only [if_true, List.mem_filter] at hp
        have := hp.2
        simpa using this

/-- Witness for C7 on a rejected toolbar touch and an accepted canvas
touch. -/
theorem c7_check_event_witness :
    (checkEvent ⟨Target.withId "toolbar", []⟩ initState = (false, initState) ∧
      touchstart ⟨Target.withId "toolbar", []⟩ initState =
        ⟨initState, [], false⟩) ∧
    checkEvent oneTouch55 initState = (true, disarm initState) :=
  ⟨⟨((c7_check_event 100 ⟨Target.withId "toolbar", []⟩ initState).1
      (by decide)).1,
    ((c7_check_event 100 ⟨Target.withId "toolbar", []⟩ initState).1
      (by decide)).2.1⟩,
   ((c7_check_event 100 oneTouch55 initState).2 (by decide)).1⟩

/-- The synthesized event when the source event has exactly one point. -/
lemma dispatchEvent_single {e : TouchEvent} {t0 : Touch}
    (h : e.touches = [t0]) (ty : MouseType) (init : EventInit) :
    dispatchEvent e ty init =
      { type := ty
        screenX := init.screenX.getD t0.screenX
        screenY := init.screenY.getD t0.screenY
        clientX := init.clientX.getD t0.clientX
        clientY := init.clientY.getD t0.clientY
        pageX := init.pageX.getD t0.pageX
        pageY := init.pageY.getD t0.pageY
        button := init.button.getD 0
        buttons := init.buttons.getD 0
        deltaY := init.deltaY.getD 0
        bubbles := true } := by
  unfold dispatchEvent
  rw [h]

/-- The synthesized event when the source event has no points. -/
lemma dispatchEvent_nil {e : TouchEvent} (h : e.touches = [])
    (ty : MouseType) (init : EventInit) :
    dispatchEvent e ty init =
      { type := ty
        screenX := init.screenX.getD 0
        screenY := init.screenY.getD 0
        clientX := init.clientX.getD 0
        clientY := init.clientY.getD 0
        pageX := init.pageX.getD 0
        pageY := init.pageY.getD 0
        button := init.button.getD 0
        buttons := init.buttons.getD 0
        deltaY := init.deltaY.getD 0
        bubbles := true } := by
  unfold dispatchEvent
  rw [h]

/-- C5: a single-finger touchstart followed by a touchend with no
intervening accepted move and no timer firing produces exactly three
synthetic events, in order mousemove, mousedown, mouseup, all with the
default primary button (button 0, buttons 0), and the mode returns to
None.  The touchstart itself produces no events. -/
theorem c5_quick_tap (e1 e2 : TouchEvent) (s : State) (p : Touch)
    (h1 : e1.touches = [p]) (hr1 : rejected e1 = false)
    (hr2 : rejected e2 = false) :
    (touchstart e1 s).events = [] ∧
    ((touchend e2 (touchstart e1 s).state).events.map
        (fun ev => (ev.type, ev.button, ev.buttons)) =
      [(MouseType.mousemove, 0, 0), (MouseType.mousedown, 0, 0),
        (MouseType.mouseup, 0, 0)]) ∧
    (touchend e2 (touchstart e1 s).state).state.mode = Mode.None := by
  have hmode : (touchstart e1 s).state.mode = Mode.PreRotate := by
    simp [touchstart, hr1, h1]
  refine ⟨by simp [touchstart, hr1], ?_, ?_⟩
  · unfold touchend
    rw [hr2]
    simp [hmode]
  · unfold touchend
    rw [hr2]
    simp [hmode]

/-- Witness for C5 on a tap at (5,5) from the initial state. -/
theorem c5_quick_tap_witness :
    (touchstart oneTouch55 initState).events = [] ∧
    ((touchend (canvasEvent []) (touchstart oneTouch55 initState).state).events.map
        (fun ev => (ev.type, ev.button, ev.buttons)) =
      [(MouseType.mousemove, 0, 0), (MouseType.mousedown, 0, 0),
        (MouseType.mouseup, 0, 0)]) ∧
    (touchend (canvasEvent [])
      (touchstart oneTouch55 initState).state).state.mode = Mode.None :=
  c5_quick_tap oneTouch55 (canvasEvent []) initState (mkTouch 5 5)
    rfl (by decide) (by decide)

/-- C4: a single-finger touchstart from any state satisfying the timer
bookkeeping invariant, held with no further accepted notification until
its context-menu timer fires, produces exactly two synthetic events in
total: a mousedown then a mouseup, both with button 2 and buttons 2, both
at the coordinates of the touchstart point; the timeout constant is 1000
milliseconds, and the mode returns to None. -/
theorem c4_long_press (e : TouchEvent) (s : State) (p : Touch)
    (hp : e.touches = [p]) (hr : rejected e = false) (hinv : TimerInv s) :
    CONTEXT_MENU_TIMEOUT = 1000 ∧
    (touchstart e s).events = [] ∧
    ∀ h, (touchstart e s).state.contextMenuTimer = some h →
      ((timerFire h (touchstart e s).state).2.map
          (fun ev => (ev.type, ev.button, ev.buttons, ev.screenX, ev.screenY,
            ev.clientX, ev.clientY, ev.pageX, ev.pageY)) =
        [(MouseType.mousedown, 2, 2, p.screenX, p.screenY, p.clientX,
            p.clientY, p.pageX, p.pageY),
          (MouseType.mouseup, 2, 2, p.screenX, p.screenY, p.clientX,
            p.clientY, p.pageX, p.pageY)]) ∧
      (timerFire h (touchstart e s).state).1.mode = Mode.None := by
  obtain ⟨-, hpend⟩ := disarm_of_timerInv s hinv
  have hstate : (touchstart e s).state.pending = [(s.nextId, e)] ∧
      (touchstart e s).state.contextMenuTimer = some s.nextId := by
    constructor <;> simp [touchstart, hr, hpend]
  refine ⟨rfl, by simp [touchstart, hr], ?_⟩
  intro h hh
  rw [hstate.2] at hh
  obtain rfl : s.nextId = h := by injection hh
  unfold timerFire
  rw [hstate.1]
  simp [contextMenuCallback, dispatchEvent_single hp]

/-- Witness for C4: a press at (5,5) from the initial state whose timer
(handle 1) fires. -/
theorem c4_long_press_witness :
    ((timerFire 1 (touchstart oneTouch55 initState).state).2.map
        (fun ev => (ev.type, ev.button, ev.buttons, ev.screenX, ev.screenY,
          ev.clientX, ev.clientY, ev.pageX, ev.pageY)) =
      [(MouseType.mousedown, 2, 2, 5, 5, 5, 5, 5, 5),
        (MouseType.mouseup, 2, 2, 5, 5, 5, 5, 5, 5)]) ∧
    (timerFire 1 (touchstart oneTouch55 initState).state).1.mode =
      Mode.None := by
  have hinv : TimerInv initState := by
    refine ⟨le_refl 1, Or.inl ⟨rfl, rfl⟩⟩
  have h := (c4_long_press oneTouch55 initState (mkTouch 5 5) rfl
    (by decide) hinv).2.2 1 (by simp [touchstart, initState, disarm, truthyId, rejected,
      oneTouch55, canvasEvent])
  exact ⟨h.1, h.2⟩

/-- C10: when the recorded previous pinch distance is exactly 0, an
accepted pinch-move in ZoomPan mode dispatches only the mousemove (no
wheel event, the zero being indistinguishable from the unset state), and
the newly measured distance replaces the zero. -/
theorem c10_zero_prev_distance (w : ℝ) (e : TouchEvent) (s : State)
    (hm : s.mode = Mode.ZoomPan) (hprev : s.prevDistance = some 0)
    (hr : rejected e = false) :
    ((touchmove w e s).events.map (fun ev => ev.type) =
      [MouseType.mousemove]) ∧
    (touchmove w e s).state.prevDistance = some (moveDistance e) := by
  constructor
  · simp [touchmove, hr, hm, hprev, jsTruthy]
  · simp [touchmove, hr, hm]

/-- Witness for C10: previous distance 0, move to points (0,0), (30,40). -/
theorem c10_zero_prev_distance_witness :
    ((touchmove 200 pinchMoveEvent zeroPrevState).events.map
      (fun ev => ev.type) = [MouseType.mousemove]) ∧
    (touchmove 200 pinchMoveEvent zeroPrevState).state.prevDistance =
      some (moveDistance pinchMoveEvent) :=
  c10_zero_prev_distance 200 pinchMoveEvent zeroPrevState rfl rfl (by decide)

/-- C3: for an accepted touchmove in ZoomPan mode whose event carries at
least two points, the recorded distance becomes the Euclidean distance of
the first two points in screen coordinates; no wheel event is dispatched
when no previous distance is recorded (the first pinch-move); a wheel
event can only be dispatched when a previous distance is recorded; and
every dispatched wheel event carries delta
(currentDistance - previousDistance) / screenWidth * 10000. -/
theorem c3_pinch_numeric (w : ℝ) (s : State) (e : TouchEvent)
    (t0 t1 : Touch) (rest : List Touch) (hm : s.mode = Mode.ZoomPan)
    (hr : rejected e = false) (ht : e.touches = t0 :: t1 :: rest) :
    ZOOM_SENSITIVITY = 10000 ∧
    (touchmove w e s).state.prevDistance =
      some (Real.sqrt ((t0.screenX - t1.screenX) ^ 2 +
        (t0.screenY - t1.screenY) ^ 2)) ∧
    (s.prevDistance = none →
      ∀ ev ∈ (touchmove w e s).events, ev.type ≠ MouseType.mousewheel) ∧
    (∀ ev ∈ (touchmove w e s).events, ev.type = MouseType.mousewheel →
      s.prevDistance ≠ none) ∧
    (∀ d, s.prevDistance = some d →
      ∀ ev ∈ (touchmove w e s).events, ev.type = MouseType.mousewheel →
        ev.deltaY = (Real.sqrt ((t0.screenX - t1.screenX) ^ 2 +
          (t0.screenY - t1.screenY) ^ 2) - d) / w * ZOOM_SENSITIVITY) := by
  have hd : moveDistance e = Real.sqrt ((t0.screenX - t1.screenX) ^ 2 +
      (t0.screenY - t1.screenY) ^ 2) := by
    simp [moveDistance, hypot, touchAt, ht]
  refine ⟨rfl, ?_, ?_, ?_, ?_⟩
  · rw [← hd]
    simp [touchmove, hr, hm]
  · intro hn ev hmem
    rw [show (touchmove w e s).events =
        [dispatchEvent e MouseType.mousemove { button := some 2 }] by
      simp [touchmove, hr, hm, hn, jsTruthy]] at hmem
    simp only [List.mem_singleton] at hmem
    subst hmem
    simp
  · intro ev hmem htype hn
    rw [show (touchmove w e s).events =
        [dispatchEvent e MouseType.mousemove { button := some 2 }] by
      simp [touchmove, hr, hm, hn, jsTruthy]] at hmem
    simp only [List.mem_singleton] at hmem
    subst hmem
    simp at htype
  · intro d hsome ev hmem htype
    by_cases hd0 : d = 0
    · subst hd0
      rw [show (touchmove w e s).events =
          [dispatchEvent e MouseType.mousemove { button := some 2 }] by
        simp [touchmove, hr, hm, hsome, jsTruthy]] at hmem
      simp only [List.mem_singleton] at hmem
      subst hmem
      simp at htype
    · rw [show (touchmove w e s).events =
          [dispatchEvent e MouseType.mousemove { button := some 2 },
            dispatchEvent e MouseType.mousewheel
              { deltaY := some ((moveDistance e - d) / w *
                  ZOOM_SENSITIVITY) }] by
        simp [touchmove, hr, hm, hsome, jsTruthy, hd0]] at hmem
      simp only [List.mem_cons, List.not_mem_nil, or_false] at hmem
      rcases hmem with hmem | hmem
      · subst hmem
        simp at htype
      · subst hmem
        simp [hd]

/-- Witness for C3: previous distance 10, move to points (0,0), (30,40),
screen width 200; the recorded distance becomes 50. -/
theorem c3_pinch_numeric_witness :
    (touchmove 200 pinchMoveEvent pinchState).state.prevDistance =
      some 50 := by
  have h := (c3_pinch_numeric 200 pinchState pinchMoveEvent
    (mkTouch 0 0) (mkTouch 30 40) [] rfl (by decide) rfl).2.1
  rw [h]
  have h50 : ((mkTouch 0 0).screenX - (mkTouch 30 40).screenX) ^ 2 +
      ((mkTouch 0 0).screenY - (mkTouch 30 40).screenY) ^ 2 =
      (50 : ℝ) ^ 2 := by
    simp [mkTouch]
    norm_num
  rw [h50, Real.sqrt_sq (by norm_num : (0:ℝ) ≤ 50)]

/-- C2 is false on the code: after a touchstart with points (0,0) and
(100,0), the touchmove to (0,0) and (80,0) — the first move of the
gesture — dispatches exactly one event, a mousedown; neither a mousemove
nor a mousewheel event is dispatched on that move. -/
theorem c2_counterexample :
    ((step 1000 (run 1000 initState [Notification.start twoTouch100])
        (Notification.move twoTouch80)).2.map (fun ev => ev.type) =
      [MouseType.mousedown]) ∧
    ∀ ev ∈ (step 1000 (run 1000 initState [Notification.start twoTouch100])
        (Notification.move twoTouch80)).2,
      ev.type ≠ MouseType.mousewheel ∧ ev.type ≠ MouseType.mousemove := by
  have h1 : run 1000 initState [Notification.start twoTouch100] =
      ⟨Mode.PreZoomPan, none, some 1, [(1, twoTouch100)], 2⟩ := by
    simp [run, step, touchstart, initState, disarm, truthyId, rejected,
      twoTouch100, canvasEvent]
  rw [h1]
  constructor
  · simp [step, touchmove, rejected, twoTouch80, canvasEvent, disarm,
      truthyId]
  · intro ev hmem
    simp only [step, touchmove, rejected, twoTouch80, canvasEvent, disarm,
      truthyId] at hmem
    simp at hmem
    subst hmem
    simp

/-- C2 amended: on the given input sequence the touchstart dispatches
nothing, and the single touchmove dispatches exactly one synthetic event,
a mousedown with button 1 and buttons 4 (the auxiliary pan button); no
mousemove and no mousewheel event is dispatched on that move, the
start-time distance 100 is never recorded (prevDistance is still unset
after the move), and the mode is then ZoomPan.  A wheel event can appear
only on a later move, once a previous ZoomPan move has recorded a
distance. -/
theorem c2_amended_first_move :
    (step 1000 initState (Notification.start twoTouch100)).2 = [] ∧
    ((step 1000 (run 1000 initState [Notification.start twoTouch100])
        (Notification.move twoTouch80)).2.map
      (fun ev => (ev.type, ev.button, ev.buttons)) =
      [(MouseType.mousedown, 1, 4)]) ∧
    (step 1000 (run 1000 initState [Notification.start twoTouch100])
        (Notification.move twoTouch80)).1.mode = Mode.ZoomPan ∧
    (step 1000 (run 1000 initState [Notification.start twoTouch100])
        (Notification.move twoTouch80)).1.prevDistance = none := by
  have h1 : run 1000 initState [Notification.start twoTouch100] =
      ⟨Mode.PreZoomPan, none, some 1, [(1, twoTouch100)], 2⟩ := by
    simp [run, step, touchstart, initState, disarm, truthyId, rejected,
      twoTouch100, canvasEvent]
  rw [h1]
  refine ⟨?_, ?_, ?_, ?_⟩ <;>
    simp [step, touchstart, touchmove, rejected, twoTouch100, twoTouch80,
      canvasEvent, disarm, truthyId, initState]

/-- An accepted touchmove leaves the timer fields exactly as the
checkEvent disarm left them, in every mode. -/
lemma touchmove_timer_fields (w : ℝ) (e : TouchEvent) (s : State)
    (hr : rejected e = false) :
    (touchmove w e s).state.contextMenuTimer =
      (disarm s).contextMenuTimer ∧
    (touchmove w e s).state.pending = (disarm s).pending ∧
    (touchmove w e s).state.nextId = s.nextId := by
  unfold touchmove
  rw [hr]
  simp only [Bool.false_eq_true, if_false]
  split <;> simp

/-- An accepted touchend leaves the timer fields exactly as the
checkEvent disarm left them, in every mode. -/
lemma touchend_timer_fields (e : TouchEvent) (s : State)
    (hr : rejected e = false) :
    (touchend e s).state.contextMenuTimer = (disarm s).contextMenuTimer ∧
    (touchend e s).state.pending = (disarm s).pending ∧
    (touchend e s).state.nextId = s.nextId := by
  unfold touchend
  rw [hr]
  simp only [Bool.false_eq_true, if_false]
  split <;> simp

lemma timerInv_touchstart (e : TouchEvent) (s : State) (h : TimerInv s) :
    TimerInv (touchstart e s).state := by
  cases hr : rejected e with
  | true => simpa [touchstart, hr] using h
  | false =>
    have hd := disarm_of_timerInv s h
    obtain ⟨hn, -⟩ := h
    refine ⟨?_, Or.inr ⟨s.nextId, e, ?_, ?_, hn, ?_⟩⟩
    · simp [touchstart, hr]
    · simp [touchstart, hr]
    · simp [touchstart, hr, hd.2]
    · simp [touchstart, hr]

lemma timerInv_touchmove (w : ℝ) (e : TouchEvent) (s : State)
    (h : TimerInv s) : TimerInv (touchmove w e s).state := by
  cases hr : rejected e with
  | true => simpa [touchmove, hr] using h
  | false =>
    have hf := touchmove_timer_fields w e s hr
    have hd := disarm_of_timerInv s h
    exact ⟨by rw [hf.2.2]; exact h.1,
      Or.inl ⟨by rw [hf.1, hd.1], by rw [hf.2.1, hd.2]⟩⟩

lemma timerInv_touchend (e : TouchEvent) (s : State) (h : TimerInv s) :
    TimerInv (touchend e s).state := by
  cases hr : rejected e with
  | true => simpa [touchend, hr] using h
  | false =>
    have hf := touchend_timer_fields e s hr
    have hd := disarm_of_timerInv s h
    exact ⟨by rw [hf.2.2]; exact h.1,
      Or.inl ⟨by rw [hf.1, hd.1], by rw [hf.2.1, hd.2]⟩⟩

lemma timerInv_timerFire (h : ℕ) (s : State) (ht : TimerInv s) :
    TimerInv (timerFire h s).1 := by
  unfold timerFire
  cases hf : s.pending.find? (fun p => p.1 == h) with
  | none => simpa using ht
  | some pe =>
    obtain ⟨hn, hcase⟩ := ht
    rcases hcase with ⟨hc, hnil⟩ | ⟨h0, e0, hc, hpl, hh1, hhn⟩
    · rw [hnil] at hf
      simp at hf
    · rw [hpl] at hf
      by_cases hb : h0 = h
      · subst hb
        refine ⟨by simpa [contextMenuCallback] using hn,
          Or.inl ⟨by simp [contextMenuCallback], ?_⟩⟩
        simp [contextMenuCallback, hpl]
      · exfalso
        have hbf : (h0 == h) = false := by simpa using hb
        simp [List.find?, hbf] at hf

lemma timerInv_step (w : ℝ) (s : State) (n : Notification)
    (h : TimerInv s) : TimerInv (step w s n).1 := by
  cases n with
  | start e => exact timerInv_touchstart e s h
  | move e => exact timerInv_touchmove w e s h
  | ended e => exact timerInv_touchend e s h
  | fire hh => exact timerInv_timerFire hh s h

lemma timerInv_run (w : ℝ) (l : List Notification) :
    ∀ s : State, TimerInv s → TimerInv (run w s l) := by
  induction l with
  | nil => intro s h; simpa [run] using h
  | cons n l ih =>
    intro s h
    have hrun : run w s (n :: l) = run w (step w s n).1 l := by
      simp [run]
    rw [hrun]
    exact ih _ (timerInv_step w s n h)

lemma timerInv_initState : TimerInv initState :=
  ⟨le_refl 1, Or.inl ⟨rfl, rfl⟩⟩

lemma pinchInv_initState : PinchInv initState := by
  refine ⟨fun _ => rfl, ?_, ?_, fun _ => ⟨rfl, rfl⟩⟩ <;> simp [initState]

lemma pinchInv_touchstart (e : TouchEvent) (s : State) (_ht : TimerInv s)
    (hp : PinchInv s)
    (hsafe : rejected e = false → s.mode ≠ Mode.ZoomPan) :
    PinchInv (touchstart e s).state := by
  cases hr : rejected e with
  | true => simpa [touchstart, hr] using hp
  | false =>
    have hprev : s.prevDistance = none := hp.1 (hsafe hr)
    refine ⟨?_, ?_, ?_, ?_⟩
    · intro
      simp [touchstart, hr, hprev]
    · intro
      by_cases hc : 2 ≤ e.touches.length <;> simp [touchstart, hr, hc]
    · by_cases hc : 2 ≤ e.touches.length <;>
        simp [touchstart, hr, hc, hprev]
    · by_cases hc : 2 ≤ e.touches.length <;> simp [touchstart, hr, hc]

lemma pinchInv_touchmove (w : ℝ) (e : TouchEvent) (s : State)
    (ht : TimerInv s) (hp : PinchInv s) :
    PinchInv (touchmove w e s).state := by
  cases hr : rejected e with
  | true => simpa [touchmove, hr] using hp
  | false =>
    have hd := disarm_of_timerInv s ht
    obtain ⟨hp1, hp2, hp3, hp4⟩ := hp
    cases hm : s.mode with
    | None =>
      have hprev : s.prevDistance = none := hp1 (by simp [hm])
      refine ⟨?_, ?_, ?_, ?_⟩ <;> simp [touchmove, hr, hm, hd.1, hprev]
    | PreRotate =>
      have hprev : s.prevDistance = none := hp1 (by simp [hm])
      refine ⟨?_, ?_, ?_, ?_⟩ <;> simp [touchmove, hr, hm, hd.1, hprev]
    | PreZoomPan =>
      have hprev : s.prevDistance = none := hp1 (by simp [hm])
      refine ⟨?_, ?_, ?_, ?_⟩ <;> simp [touchmove, hr, hm, hd.1, hprev]
    | Rotate =>
      have hprev : s.prevDistance = none := hp1 (by simp [hm])
      refine ⟨?_, ?_, ?_, ?_⟩ <;> simp [touchmove, hr, hm, hd.1, hprev]
    | ZoomPan =>
      refine ⟨?_, ?_, ?_, ?_⟩ <;> simp [touchmove, hr, hm, hd.1]

lemma pinchInv_touchend (e : TouchEvent) (s : State) (ht : TimerInv s)
    (hp : PinchInv s) : PinchInv (touchend e s).state := by
  cases hr : rejected e with
  | true => simpa [touchend, hr] using hp
  | false =>
    have hd := disarm_of_timerInv s ht
    obtain ⟨hp1, hp2, hp3, hp4⟩ := hp
    cases hm : s.mode with
    | None =>
      have hprev : s.prevDistance = none := hp1 (by simp [hm])
      refine ⟨?_, ?_, ?_, ?_⟩ <;> simp [touchend, hr, hm, hd.1, hprev]
    | PreRotate =>
      have hprev : s.prevDistance = none := hp1 (by simp [hm])
      refine ⟨?_, ?_, ?_, ?_⟩ <;> simp [touchend, hr, hm, hd.1, hprev]
    | PreZoomPan =>
      have hprev : s.prevDistance = none := hp1 (by simp [hm])
      refine ⟨?_, ?_, ?_, ?_⟩ <;> simp [touchend, hr, hm, hd.1, hprev]
    | Rotate =>
      have hprev : s.prevDistance = none := hp1 (by simp [hm])
      refine ⟨?_, ?_, ?_, ?_⟩ <;> simp [touchend, hr, hm, hd.1, hprev]
    | ZoomPan =>
      refine ⟨?_, ?_, ?_, ?_⟩ <;> simp [touchend, hr, hm, hd.1]

lemma pinchInv_timerFire (h : ℕ) (s : State) (ht : TimerInv s)
    (hp : PinchInv s) : PinchInv (timerFire h s).1 := by
  unfold timerFire
  cases hf : s.pending.find? (fun p => p.1 == h) with
  | none => simpa using hp
  | some pe =>
    obtain ⟨-, hcase⟩ := ht
    rcases hcase with ⟨hc, hnil⟩ | ⟨h0, e0, hc, hpl, -, -⟩
    · rw [hnil] at hf
      simp at hf
    · have hmode := hp.2.1 (by rw [hc]; simp)
      have hprev : s.prevDistance = none := by
        refine hp.1 ?_
        rcases hmode with hm | hm <;> rw [hm] <;> simp
      refine ⟨?_, ?_, ?_, ?_⟩ <;> simp [contextMenuCallback, hprev]

lemma pinchInv_step (w : ℝ) (s : State) (n : Notification)
    (ht : TimerInv s) (hp : PinchInv s)
    (hsafe : ∀ e, n = Notification.start e → rejected e = false →
      s.mode ≠ Mode.ZoomPan) :
    PinchInv (step w s n).1 := by
  cases n with
  | start e => exact pinchInv_touchstart e s ht hp (hsafe e rfl)
  | move e => exact pinchInv_touchmove w e s ht hp
  | ended e => exact pinchInv_touchend e s ht hp
  | fire hh => exact pinchInv_timerFire hh s ht hp

lemma inv_safeRun (w : ℝ) : ∀ (l : List Notification) (s : State),
    TimerInv s → PinchInv s → SafeTrace w s l →
    TimerInv (run w s l) ∧ PinchInv (run w s l) := by
  intro l
  induction l with
  | nil =>
    intro s h1 h2 _
    constructor <;> simpa [run]
  | cons n l ih =>
    intro s h1 h2 hsafe
    obtain ⟨hcond, hrest⟩ := hsafe
    have hrun : run w s (n :: l) = run w (step w s n).1 l := by
      simp [run]
    rw [hrun]
    exact ih _ (timerInv_step w s n h1) (pinchInv_step w s n h1 h2 hcond)
      hrest

/-- C6: the timer bookkeeping invariant holds in every reachable state,
so at most one context-menu timer is ever outstanding; firing a timer
handle that is no longer outstanding (because clearTimeout removed it) is
a no-op that synthesizes nothing; and every accepted notification removes
the previously armed timer handle from the outstanding list before
anything else happens, so that timer can never fire afterwards. -/
theorem c6_single_timer (w : ℝ) :
    (∀ l, TimerInv (run w initState l) ∧
      (run w initState l).pending.length ≤ 1) ∧
    (∀ (s : State) (h : ℕ), h ∉ s.pending.map Prod.fst →
      timerFire h s = (s, [])) ∧
    (∀ (s : State) (e : TouchEvent) (h : ℕ), TimerInv s →
      rejected e = false → s.contextMenuTimer = some h →
      h ∉ (touchstart e s).state.pending.map Prod.fst ∧
      (touchmove w e s).state.pending = [] ∧
      (touchend e s).state.pending = []) := by
  refine ⟨?_, ?_, ?_⟩
  · intro l
    have hinv := timerInv_run w l initState timerInv_initState
    refine ⟨hinv, ?_⟩
    rcases hinv.2 with ⟨-, hnil⟩ | ⟨h0, e0, -, hpl, -, -⟩
    · simp [hnil]
    · simp [hpl]
  · intro s h hmem
    have hnone : s.pending.find? (fun p => p.1 == h) = none := by
      rw [List.find?_eq_none]
      intro x hx
      simp only [beq_iff_eq]
      intro heq
      exact hmem (List.mem_map.mpr ⟨x, hx, heq⟩)
    unfold timerFire
    rw [hnone]
  · intro s e h hinv hr hc
    have hd := disarm_of_timerInv s hinv
    have hfresh : h < s.nextId := by
      rcases hinv.2 with ⟨hcn, -⟩ | ⟨h0, e0, hc0, -, -, hhn⟩
      · rw [hcn] at hc
        exact absurd hc (by simp)
      · rw [hc0] at hc
        obtain rfl : h0 = h := by injection hc
        exact hhn
    refine ⟨?_, (touchmove_timer_fields w e s hr).2.1.trans hd.2,
      (touchend_timer_fields e s hr).2.1.trans hd.2⟩
    have hpend : (touchstart e s).state.pending = [(s.nextId, e)] := by
      simp [touchstart, hr, hd.2]
    rw [hpend]
    simp
    omega

/-- Witness for C6: the invariant at the initial state and a no-op firing
of a handle that was never armed. -/
theorem c6_single_timer_witness :
    TimerInv (run 100 initState []) ∧
    timerFire 5 initState = (initState, []) :=
  ⟨((c6_single_timer 100).1 []).1,
   (c6_single_timer 100).2.1 initState 5 (by simp [initState])⟩

/-- C1 is false on the code as stated: if a touchstart is accepted while
the mode is still ZoomPan (here: pinch start, two moves, then a
one-finger touchstart), the previous pinch distance stays recorded while
the mode is PreRotate and the long-press timer is armed, so the pinch
memory is set outside Pinching and both pinch memory and timer are active
at once. -/
theorem c1_counterexample :
    (run 1000 initState [Notification.start twoTouch100,
        Notification.move twoTouch100, Notification.move twoTouch100,
        Notification.start oneTouch55]).mode = Mode.PreRotate ∧
    (run 1000 initState [Notification.start twoTouch100,
        Notification.move twoTouch100, Notification.move twoTouch100,
        Notification.start oneTouch55]).prevDistance ≠ none ∧
    (run 1000 initState [Notification.start twoTouch100,
        Notification.move twoTouch100, Notification.move twoTouch100,
        Notification.start oneTouch55]).contextMenuTimer ≠ none := by
  have hrun : run 1000 initState [Notification.start twoTouch100,
      Notification.move twoTouch100, Notification.move twoTouch100,
      Notification.start oneTouch55] =
      ⟨Mode.PreRotate, some (moveDistance twoTouch100), some 2,
        [(2, oneTouch55)], 3⟩ := by
    simp [run, step, touchstart, touchmove, rejected, twoTouch100,
      oneTouch55, canvasEvent, disarm, truthyId, initState]
  rw [hrun]
  refine ⟨rfl, by simp, by simp⟩

/-- C1 amended: for every notification sequence in which no touchstart is
accepted while the mode is still ZoomPan, every reachable state satisfies
the claimed invariant: the pinch memory is unset whenever the mode is not
ZoomPan, an armed long-press timer implies a pending mode, at most one of
pinch memory and long-press timer is active, and both are clear whenever
the mode is back to None. -/
theorem c1_invariant_amended (w : ℝ) (l : List Notification)
    (h : SafeTrace w initState l) : PinchInv (run w initState l) :=
  (inv_safeRun w l initState timerInv_initState pinchInv_initState h).2

/-- Witness for C1 on the one-notification trace of a canvas touchstart. -/
theorem c1_invariant_amended_witness :
    PinchInv (run 100 initState [Notification.start oneTouch55]) :=
  c1_invariant_amended 100 [Notification.start oneTouch55]
    ⟨fun e he hr => by simp [initState], trivial⟩

/-- Every event built by dispatchEvent from a coordinate-free eventInit
satisfies the coordinate rule relative to its source touch event. -/
lemma coordsFrom_dispatch (te : TouchEvent) (ty : MouseType)
    (init : EventInit) (h : coordFree init) :
    coordsFrom te (dispatchEvent te ty init) := by
  obtain ⟨h1, h2, h3, h4, h5, h6⟩ := h
  rcases hts : te.touches with _ | ⟨t0, _ | ⟨t1, rest⟩⟩ <;>
    simp [coordsFrom, dispatchEvent, hts, h1, h2, h3, h4, h5, h6]

/-- Every event a touchmove dispatches is built by dispatchEvent on the
move event itself, from a coordinate-free eventInit. -/
lemma touchmove_events_form (w : ℝ) (e : TouchEvent) (s : State) :
    ∀ ev ∈ (touchmove w e s).events, ∃ ty init, coordFree init ∧
      ev = dispatchEvent e ty init := by
  intro ev hmem
  unfold touchmove at hmem
  by_cases hr : rejected e = true
  · rw [if_pos hr] at hmem
    simp at hmem
  · rw [if_neg hr] at hmem
    cases hms : (disarm s).mode with
    | None =>
      simp only [hms] at hmem
      simp at hmem
    | PreRotate =>
      simp only [hms, List.mem_singleton] at hmem
      exact ⟨_, _, by simp [coordFree], hmem⟩
    | PreZoomPan =>
      simp only [hms, List.mem_singleton] at hmem
      exact ⟨_, _, by simp [coordFree], hmem⟩
    | Rotate =>
      simp only [hms, List.mem_singleton] at hmem
      exact ⟨_, _, by simp [coordFree], hmem⟩
    | ZoomPan =>
      simp only [hms] at hmem
      by_cases hj : jsTruthy (disarm s).prevDistance
      · simp only [if_pos hj, List.mem_cons, List.not_mem_nil,
          or_false] at hmem
        rcases hmem with hmem | hmem
        · exact ⟨_, _, by simp [coordFree], hmem⟩
        · exact ⟨_, _, by simp [coordFree], hmem⟩
      · simp only [if_neg hj, List.mem_cons, List.not_mem_nil,
          or_false] at hmem
        exact ⟨_, _, by simp [coordFree], hmem⟩

/-- Every event a touchend dispatches is built by dispatchEvent on the
end event itself, from a coordinate-free eventInit. -/
lemma touchend_events_form (e : TouchEvent) (s : State) :
    ∀ ev ∈ (touchend e s).events, ∃ ty init, coordFree init ∧
      ev = dispatchEvent e ty init := by
  intro ev hmem
  unfold touchend at hmem
  by_cases hr : rejected e = true
  · rw [if_pos hr] at hmem
    simp at hmem
  · rw [if_neg hr] at hmem
    cases hms : (disarm s).mode with
    | None =>
      simp only [hms] at hmem
      simp at hmem
    | PreZoomPan =>
      simp only [hms] at hmem
      simp at hmem
    | PreRotate =>
      simp only [hms, List.mem_cons, List.not_mem_nil, or_false] at hmem
      rcases hmem with hmem | hmem | hmem
      · exact ⟨_, _, by simp [coordFree], hmem⟩
      · exact ⟨_, _, by simp [coordFree], hmem⟩
      · exact ⟨_, _, by simp [coordFree], hmem⟩
    | Rotate =>
      simp only [hms, List.mem_singleton] at hmem
      exact ⟨_, _, by simp [coordFree], hmem⟩
    | ZoomPan =>
      simp only [hms, List.mem_singleton] at hmem
      exact ⟨_, _, by simp [coordFree], hmem⟩

/-- C9: every synthesized event bubbles, whatever overrides the eventInit
carries (bubbles is set after the spread); and every event the system
dispatches on any notification satisfies the coordinate rule relative to
the source touch event (the notification event, or the captured
touchstart for a timer firing): average of the first two points when two
are present, the single point when one, zero when none. -/
theorem c9_synthesizer :
    (∀ (te : TouchEvent) (ty : MouseType) (init : EventInit),
      (dispatchEvent te ty init).bubbles = true) ∧
    (∀ (w : ℝ) (s : State) (n : Notification),
      ∀ ev ∈ (step w s n).2, ev.bubbles = true ∧
        ∃ te, sourceEvent s n = some te ∧ coordsFrom te ev) := by
  refine ⟨fun te ty init => dispatchEvent_bubbles te ty init, ?_⟩
  intro w s n ev hmem
  cases n with
  | start e =>
    have hev : (step w s (Notification.start e)).2 = [] := by
      cases hr : rejected e <;> simp [step, touchstart, hr]
    rw [hev] at hmem
    simp at hmem
  | move e =>
    have hform := touchmove_events_form w e s ev
      (by simpa [step] using hmem)
    obtain ⟨ty, init, hcf, rfl⟩ := hform
    exact ⟨dispatchEvent_bubbles e ty init,
      e, rfl, coordsFrom_dispatch e ty init hcf⟩
  | ended e =>
    have hform := touchend_events_form e s ev
      (by simpa [step] using hmem)
    obtain ⟨ty, init, hcf, rfl⟩ := hform
    exact ⟨dispatchEvent_bubbles e ty init,
      e, rfl, coordsFrom_dispatch e ty init hcf⟩
  | fire h =>
    simp only [step, timerFire] at hmem
    cases hf : s.pending.find? (fun p => p.1 == h) with
    | none =>
      rw [hf] at hmem
      simp at hmem
    | some pe =>
      rw [hf] at hmem
      simp only [contextMenuCallback, List.mem_cons, List.not_mem_nil,
        or_false] at hmem
      have hsrc : sourceEvent s (Notification.fire h) = some pe.2 := by
        simp [sourceEvent, hf]
      rcases hmem with hmem | hmem <;> subst hmem
      · exact ⟨dispatchEvent_bubbles pe.2 MouseType.mousedown _,
          pe.2, hsrc, coordsFrom_dispatch pe.2 MouseType.mousedown _
            (by simp [coordFree])⟩
      · exact ⟨dispatchEvent_bubbles pe.2 MouseType.mouseup _,
          pe.2, hsrc, coordsFrom_dispatch pe.2 MouseType.mouseup _
            (by simp [coordFree])⟩

/-- Witness for C9 on the mousemove dispatched by a pinch-move with a
zero recorded distance. -/
theorem c9_synthesizer_witness :
    (dispatchEvent pinchMoveEvent MouseType.mousemove
      { button := some 2 }).bubbles = true ∧
    ∃ te, sourceEvent zeroPrevState (Notification.move pinchMoveEvent) =
      some te ∧
      coordsFrom te (dispatchEvent pinchMoveEvent MouseType.mousemove
        { button := some 2 }) := by
  have hmem : dispatchEvent pinchMoveEvent MouseType.mousemove
      { button := some 2 } ∈
      (step 100 zeroPrevState (Notification.move pinchMoveEvent)).2 := by
    rw [show (step 100 zeroPrevState (Notification.move pinchMoveEvent)).2 =
        [dispatchEvent pinchMoveEvent MouseType.mousemove
          { button := some 2 }] from by
      simp [step, touchmove, rejected, pinchMoveEvent, canvasEvent, disarm,
        truthyId, zeroPrevState, jsTruthy]]
    exact List.mem_singleton.mpr rfl
  exact c9_synthesizer.2 100 zeroPrevState
    (Notification.move pinchMoveEvent) _ hmem

end OnshapeTouch
